import Mathlib

/-!
# Verification of the property/agent dashboard pipeline (src/app.py)

Shallow embedding of the data-fetch-merge-filter pipeline of `src/app.py`:

* tabular data (pandas `DataFrame`) is modelled as a column list plus a list
  of rows, where a row is an association list from column name to a dynamic
  scalar value (`Value`: string, integer, or null/NaN);
* `fetch_data` (lines 51-73) is modelled as a function of the database
  outcome for the call, recording the streamlit error messages shown and the
  connection open/close events of the `try/except/finally`;
* the merge-and-enrich step (lines 94-110) is `merged_df`, returning
  `Except String DataFrame` because pandas raises `KeyError` when the
  selected columns or the merge key are absent;
* the sidebar filters (lines 130-137) are `filtered_df`;
* the surrounding script control flow (lines 80-91 and 270-282) is
  `run_dashboard`; the startup configuration checks (lines 23-49) are
  `dashboard_startup`.
-/

set_option autoImplicit false

namespace Dashboard

/-- A dynamic scalar cell value of a pandas DataFrame: a string, an integer,
or null (`NaN`/`None`). -/
inductive Value where
  | str (s : String)
  | num (n : Int)
  | null
  deriving DecidableEq, Repr

/-- A row: an association list from column name to cell value (a pandas row,
column order included). -/
abbrev Row := List (String × Value)

/-- Column access on a row: the value of the first entry whose key is the
requested column, `null` when the column is absent (pandas stores `NaN` for a
column a row does not populate). -/
def Row.get : Row → String → Value
  | [], _ => Value.null
  | (c, v) :: r, c' => if c = c' then v else Row.get r c'

/-- Whether a row carries an entry for the column. -/
def Row.hasCol : Row → String → Bool
  | [], _ => false
  | (c, _) :: r, c' => c = c' || Row.hasCol r c'

/-- A pandas DataFrame: ordered column names and rows. -/
structure DataFrame where
  cols : List String
  rows : List Row
  deriving DecidableEq, Repr

/-- The empty DataFrame (`pd.DataFrame()`), as returned by `fetch_data` on
failure (src/app.py line 70). -/
def DataFrame.empty : DataFrame := ⟨[], []⟩

/-- Well-formedness: every key appearing in a row is a declared column.
(pandas guarantees this; the embedding states it where a proof needs it.) -/
def DataFrame.Wf (df : DataFrame) : Prop :=
  ∀ r ∈ df.rows, ∀ p ∈ r, p.1 ∈ df.cols

instance (df : DataFrame) : Decidable df.Wf := by
  unfold DataFrame.Wf; infer_instance

/-- Python/pandas elementwise equality `==` between cells: two non-null values
of the same kind compare by value; `NaN` compares unequal to everything,
including itself, and values of different kinds compare unequal. -/
def pyEq : Value → Value → Bool
  | Value.str a, Value.str b => a = b
  | Value.num a, Value.num b => a = b
  | _, _ => false

/-! ## Filter engine (src/app.py lines 130-137) -/

/-- Whether a sidebar selection is the wildcard entry: the code compares the
selection against the Python string `'All'`
(`if selected_property_type != 'All':`, line 132). -/
def isAll : Value → Bool
  | Value.str s => s = "All"
  | _ => false

/-- One conditional filter stage of lines 132-137: if the selection is not
`'All'`, keep the rows whose cell in `col` equals the selection
(`filtered_df = filtered_df[filtered_df[col] == selected]`). -/
def applyColumnFilter (df : DataFrame) (col : String) (sel : Value) : DataFrame :=
  if isAll sel then df
  else { df with rows := df.rows.filter (fun r => pyEq (r.get col) sel) }

/-- The three sequential sidebar filters of lines 130-137, applied to the
merged data: property type, then city, then agent company. -/
def filtered_df (merged : DataFrame) (selPropertyType selCity selAgentCompany : Value) :
    DataFrame :=
  applyColumnFilter
    (applyColumnFilter
      (applyColumnFilter merged "propertyType" selPropertyType)
      "city" selCity)
    "agent_companyName" selAgentCompany

/-- Spec-side predicate for the filter claims: a row passes when, for each of
the three filter columns, either the selection is the wildcard or the row's
cell equals the selection — the conjunction of the active constraints. -/
def passesFilters (selPropertyType selCity selAgentCompany : Value) (r : Row) : Bool :=
  (isAll selPropertyType || pyEq (r.get "propertyType") selPropertyType) &&
  (isAll selCity || pyEq (r.get "city") selCity) &&
  (isAll selAgentCompany || pyEq (r.get "agent_companyName") selAgentCompany)

/-! ## Join-and-enrich (src/app.py lines 94-110) -/

/-- Line 94: `agent_cols_to_merge = ['id', 'companyName', 'email', 'phoneNumber']`
(line 94). -/
def agent_cols_to_merge : List String := ["id", "companyName", "email", "phoneNumber"]

/-- The renamed agent columns attached by the merge, in order: the three
display attributes after the rename of lines 96-101 (the key `id` is renamed
to `agentId` and consumed by the join). -/
def enrichCols : List String := ["agent_companyName", "agent_email", "agent_phoneNumber"]

/-- The projection-and-rename of one agent row (lines 96-101): keep columns
`id`, `companyName`, `email`, `phoneNumber` and rename them to `agentId`,
`agent_companyName`, `agent_email`, `agent_phoneNumber`. -/
def selRow (ar : Row) : Row :=
  [("agentId", ar.get "id"),
   ("agent_companyName", ar.get "companyName"),
   ("agent_email", ar.get "email"),
   ("agent_phoneNumber", ar.get "phoneNumber")]

/-- Definition of `agent_df_selected` (lines 96-101): `agent_df[agent_cols_to_merge]`
raises `KeyError` when any of the four columns is absent; otherwise the
frame is projected to those columns and renamed. -/
def agent_df_selected (agent_df : DataFrame) : Except String DataFrame :=
  if agent_cols_to_merge.all (fun c => agent_df.cols.contains c) then
    Except.ok { cols := "agentId" :: enrichCols, rows := agent_df.rows.map selRow }
  else
    Except.error "KeyError: agent columns ['id', 'companyName', 'email', 'phoneNumber']"

/-- The per-property-row output of pandas `pd.merge(property_df,
agent_df_selected, on='agentId', how='left')` (line 105): the right rows whose
`agentId` equals the left row's `agentId` (NaN keys match nothing); with no
match, one output row with the right-only columns null; with matches, one
output row per matching right row. -/
def mergeRowOutputs (sel_rows : List Row) (lr : Row) : List Row :=
  let ms := sel_rows.filter (fun rr => pyEq (lr.get "agentId") (rr.get "agentId"))
  if ms.isEmpty then
    [lr ++ enrichCols.map (fun c => (c, Value.null))]
  else
    ms.map (fun rr => lr ++ enrichCols.map (fun c => (c, rr.get c)))

/-- Action of `fillna` on one row restricted to one column (lines 108-110): replace a
null cell of column `col` by `v`, leaving all other cells alone. -/
def fillRow (col : String) (v : Value) (r : Row) : Row :=
  r.map (fun p => if p.1 = col ∧ p.2 = Value.null then (p.1, v) else p)

/-- Column-wise fill `merged_df[col] = merged_df[col].fillna(v)` (lines 108-110). -/
def DataFrame.fillna (df : DataFrame) (col : String) (v : Value) : DataFrame :=
  { df with rows := df.rows.map (fillRow col v) }

/-- Definition of `merged_df` (lines 94-110): project and rename the agent frame, left-merge
into the property frame on `agentId`, then fill the three agent columns'
nulls with the sentinels. `Except.error` models the exceptions pandas raises
inside the block (caught by the script-level handler at line 279):
`KeyError` when a selected agent column or the merge key `agentId` is
missing, and — because `pd.merge` suffixes overlapping non-key column names
with `_x`/`_y` — a `KeyError` at the `fillna` lines when the property frame
already carries one of the `agent_`-prefixed column names. -/
def merged_df (property_df agent_df : DataFrame) : Except String DataFrame :=
  match agent_df_selected agent_df with
  | Except.error e => Except.error e
  | Except.ok sel =>
      if property_df.cols.contains "agentId" then
        if enrichCols.any (fun c => property_df.cols.contains c) then
          Except.error "KeyError: overlapping agent_ column is suffixed by the merge"
        else
          let m : DataFrame :=
            { cols := property_df.cols ++ enrichCols,
              rows := property_df.rows.flatMap (mergeRowOutputs sel.rows) }
          Except.ok
            (((m.fillna "agent_companyName" (Value.str "No Agent Assigned")).fillna
                "agent_email" (Value.str "N/A")).fillna
              "agent_phoneNumber" (Value.str "N/A"))
      else
        Except.error "KeyError: agentId"

/-! ## Table fetcher (src/app.py lines 51-73) -/

/-- The database's outcome for one `fetch_data` call: `psycopg2.connect`
raises, `pd.read_sql` raises, or the query returns a frame. -/
inductive DbOutcome where
  | connectFailure (msg : String)
  | queryFailure (msg : String)
  | success (df : DataFrame)
  deriving DecidableEq, Repr

/-- What one `fetch_data` call produces and does: the returned frame, the
`st.error` messages shown, and how many connections were opened and closed. -/
structure FetchedResult where
  df : DataFrame
  errorsShown : List String
  connectionsOpened : Nat
  connectionsClosed : Nat
  queryIssued : Option String
  deriving DecidableEq, Repr

/-- Definition of `fetch_data` (lines 51-73). `conn = None`; the `try` body assigns `conn`
only once `connect` succeeds and then runs the query; `except` shows
`st.error(f"Error fetching {table_name}: ...")` and returns an empty frame;
`finally` closes `conn` exactly when it was assigned (`if conn:
conn.close()`). -/
def fetch_data (db : DbOutcome) (table_name : String) (limit : Nat) : FetchedResult :=
  let tryStep : Option Unit × Except String DataFrame :=
    match db with
    | DbOutcome.connectFailure msg => (none, Except.error msg)
    | DbOutcome.queryFailure msg => (some (), Except.error msg)
    | DbOutcome.success df => (some (), Except.ok df)
  let conn := tryStep.1
  let opened := if conn.isSome then 1 else 0
  let closed := match conn with
    | some _ => 1
    | none => 0
  let query := match conn with
    | some _ => some ("SELECT * FROM \"" ++ table_name ++ "\" LIMIT " ++ toString limit)
    | none => none
  match tryStep.2 with
  | Except.ok df => ⟨df, [], opened, closed, query⟩
  | Except.error msg =>
      ⟨DataFrame.empty, ["Error fetching " ++ table_name ++ ": " ++ msg], opened, closed, query⟩

/-- Modelled from the spec: the memoization applied to `fetch_data` by the
`@st.cache_data(ttl=300)` decorator (line 51). The decorator's implementation
lives in the streamlit library, not in this repository; the spec describes it
as a cache keyed by the argument tuple `(tableName, limit)` whose entries
expire a fixed time-to-live after being stored. -/
structure CacheEntry where
  key : String × Nat
  value : DataFrame
  expiry : Nat
  deriving DecidableEq, Repr

/-- Modelled from the spec: look up a live cache entry for the key at the
current time. -/
def cacheLookup (cache : List CacheEntry) (k : String × Nat) (now : Nat) :
    Option DataFrame :=
  match cache.find? (fun e => e.key = k ∧ now < e.expiry) with
  | some e => some e.value
  | none => none

/-- Modelled from the spec: one call through the cached `fetch_data`. On a
live cache hit the stored frame is returned and no query runs; on a miss the
underlying query runs once and its result is stored with expiry `now + ttl`.
Returns (frame, new cache state, number of underlying queries issued). -/
def cached_fetch (query : String → Nat → DataFrame) (ttl now : Nat)
    (tableName : String) (limit : Nat) (cache : List CacheEntry) :
    DataFrame × List CacheEntry × Nat :=
  match cacheLookup cache (tableName, limit) now with
  | some df => (df, cache, 0)
  | none =>
      let df := query tableName limit
      (df, ⟨(tableName, limit), df, now + ttl⟩ :: cache, 1)

/-! ## Script control flow (src/app.py lines 75-91 and 270-282) -/

/-- What the script renders for one interaction, after both fetches. -/
inductive Rendered where
  | stoppedBothEmpty
  | mergedView (merged : DataFrame)
  | agentOnly (agent : DataFrame)
  | propertyOnly (property : DataFrame)
  | errorNotice (msg : String)
  deriving DecidableEq, Repr

/-- The messages shown alongside the rendered outcome. -/
structure RunResult where
  outcome : Rendered
  warnings : List String
  infos : List String
  errors : List String
  deriving DecidableEq, Repr

/-- The script body after the two fetches (lines 80-91 and 270-282): both
frames empty warns and stops; one empty frame warns; with both non-empty the
merge pipeline runs (any exception inside the `try` is caught at line 279 and
shown with `st.error`); with exactly one non-empty frame that frame is shown
unmodified with an `st.info` notice that no merge is possible. -/
def run_dashboard (agent_df property_df : DataFrame) : RunResult :=
  if agent_df.rows.isEmpty && property_df.rows.isEmpty then
    { outcome := Rendered.stoppedBothEmpty,
      warnings := ["⚠️ No data returned from either Agent or Property tables."],
      infos := [], errors := [] }
  else
    let ws : List String :=
      if agent_df.rows.isEmpty then ["⚠️ No data returned from Agent table."]
      else if property_df.rows.isEmpty then ["⚠️ No data returned from Property table."]
      else []
    if !agent_df.rows.isEmpty && !property_df.rows.isEmpty then
      match merged_df property_df agent_df with
      | Except.ok m =>
          { outcome := Rendered.mergedView m, warnings := ws, infos := [], errors := [] }
      | Except.error e =>
          { outcome := Rendered.errorNotice e, warnings := ws, infos := [],
            errors := ["❌ An unexpected error occurred: " ++ e] }
    else if !agent_df.rows.isEmpty then
      { outcome := Rendered.agentOnly agent_df, warnings := ws,
        infos := ["Property data is empty, cannot perform merge or property-related visualizations."],
        errors := [] }
    else
      { outcome := Rendered.propertyOnly property_df, warnings := ws,
        infos := ["Agent data is empty, cannot perform merge or agent-related visualizations."],
        errors := [] }

/-! ## Startup configuration (src/app.py lines 23-49) -/

/-- Python truthiness of `os.getenv`'s result: `None` (variable unset) and the
empty string are falsy. -/
def truthy : Option String → Bool
  | none => false
  | some s => !(s = "")

/-- The variables the spec calls required: the four credentials checked at
line 38 and the two table names checked at line 47. -/
def requiredCredVars : List String := ["DB_HOST", "DB_NAME", "DB_USER", "DB_PASSWORD"]

/-- The two required table-name variables (line 47). -/
def requiredTableVars : List String := ["DB_TABLE_AGENT", "DB_TABLE_PROPERTY"]

/-- Line 24, `os.getenv("DB_PORT", "5432")`: the default applies only when
the variable is unset. -/
def db_port (env : String → Option String) : String := (env "DB_PORT").getD "5432"

/-- Line 28, `os.getenv("DB_SSL_MODE", "require")`. -/
def db_ssl_mode (env : String → Option String) : String :=
  (env "DB_SSL_MODE").getD "require"

/-- What the startup checks do: whether `st.stop()` halted the script, the
messages shown, which variable names those messages spell out, and how many
`fetch_data` calls are reached (lines 77-78 issue two once startup passes). -/
structure StartupResult where
  halted : Bool
  errors : List String
  infos : List String
  namedVars : List String
  fetchCalls : Nat
  deriving DecidableEq, Repr

/-- The startup checks (lines 23-49) followed by the two fetches (lines
77-78). `if not all([db_host, db_name, db_user, db_password])` shows an error
plus an info naming the four credential variables and stops; only when the
credentials pass are the table names read and checked, with an error naming
the two table variables; only when both checks pass are the two
`fetch_data` calls reached. -/
def dashboard_startup (env : String → Option String) : StartupResult :=
  if !(truthy (env "DB_HOST") && truthy (env "DB_NAME") &&
       truthy (env "DB_USER") && truthy (env "DB_PASSWORD")) then
    { halted := true,
      errors := ["❌ Missing database credentials! Please check your .env file."],
      infos := ["Required variables: DB_HOST, DB_NAME, DB_USER, DB_PASSWORD"],
      namedVars := requiredCredVars,
      fetchCalls := 0 }
  else if !(truthy (env "DB_TABLE_AGENT") && truthy (env "DB_TABLE_PROPERTY")) then
    { halted := true,
      errors := ["❌ Missing table names! Please set DB_TABLE_AGENT and DB_TABLE_PROPERTY in your .env file."],
      infos := [],
      namedVars := requiredTableVars,
      fetchCalls := 0 }
  else
    { halted := false, errors := [], infos := [], namedVars := [], fetchCalls := 2 }

/-! ## Concrete frames and environments used by witnesses and counterexamples -/

/-- A one-row property frame (the spec's first scenario). -/
def exampleProperty : DataFrame :=
  { cols := ["id", "agentId", "propertyType", "city"],
    rows := [[("id", Value.num 1), ("agentId", Value.num 10),
              ("propertyType", Value.str "House"), ("city", Value.str "Metropolis")]] }

/-- A one-row agent frame (the spec's first scenario). -/
def exampleAgent : DataFrame :=
  { cols := ["id", "companyName", "email", "phoneNumber"],
    rows := [[("id", Value.num 10), ("companyName", Value.str "Acme Realty"),
              ("email", Value.str "a@x.com"), ("phoneNumber", Value.str "555")]] }

/-- A property frame whose foreign key `99` matches no agent (the spec's
second scenario). -/
def noMatchProperty : DataFrame :=
  { cols := ["id", "agentId"],
    rows := [[("id", Value.num 2), ("agentId", Value.num 99)]] }

/-- The single enriched row produced for `noMatchProperty` against
`exampleAgent`: sentinels in the three agent columns. -/
def noMatchRow : Row :=
  [("id", Value.num 2), ("agentId", Value.num 99),
   ("agent_companyName", Value.str "No Agent Assigned"),
   ("agent_email", Value.str "N/A"),
   ("agent_phoneNumber", Value.str "N/A")]

/-- The merged frame produced for `noMatchProperty` against `exampleAgent`. -/
def noMatchMerged : DataFrame :=
  { cols := ["id", "agentId", "agent_companyName", "agent_email", "agent_phoneNumber"],
    rows := [noMatchRow] }

/-- An agent frame in which the identifier `10` appears twice. -/
def dupAgent : DataFrame :=
  { cols := ["id", "companyName", "email", "phoneNumber"],
    rows := [[("id", Value.num 10), ("companyName", Value.str "A"),
              ("email", Value.str "a"), ("phoneNumber", Value.str "1")],
             [("id", Value.num 10), ("companyName", Value.str "B"),
              ("email", Value.str "b"), ("phoneNumber", Value.str "2")]] }

/-- A non-empty property frame lacking the `agentId` foreign-key column. -/
def noKeyProperty : DataFrame :=
  { cols := ["id"], rows := [[("id", Value.num 1)]] }

/-- An environment with no variable set. -/
def envEmpty : String → Option String := fun _ => none

/-! ## Association-list lemmas -/

theorem Row.get_eq_null_of_hasCol_eq_false {r : Row} {c : String}
    (h : r.hasCol c = false) : r.get c = Value.null := by
  induction r with
  | nil => rfl
  | cons p r ih =>
      obtain ⟨k, v⟩ := p
      simp only [Row.hasCol, Bool.or_eq_false_iff, decide_eq_false_iff_not] at h
      simp [Row.get, h.1, ih h.2]

theorem Row.get_append (r1 r2 : Row) (c : String) :
    (r1 ++ r2).get c = if r1.hasCol c then r1.get c else r2.get c := by
  induction r1 with
  | nil => simp [Row.hasCol, Row.get]
  | cons p r ih =>
      obtain ⟨k, v⟩ := p
      by_cases h : k = c <;> simp [Row.hasCol, Row.get, h, ih]

theorem Row.hasCol_append (r1 r2 : Row) (c : String) :
    (r1 ++ r2).hasCol c = (r1.hasCol c || r2.hasCol c) := by
  induction r1 with
  | nil => simp [Row.hasCol]
  | cons p r ih =>
      obtain ⟨k, v⟩ := p
      by_cases h : k = c <;> simp [Row.hasCol, h, ih]

theorem Row.hasCol_eq_false_of_keys_ne {r : Row} {c : String}
    (h : ∀ p ∈ r, p.1 ≠ c) : r.hasCol c = false := by
  induction r with
  | nil => rfl
  | cons p r ih =>
      obtain ⟨k, v⟩ := p
      have hk : k ≠ c := h (k, v) (by simp)
      simp [Row.hasCol, hk, ih (fun q hq => h q (by simp [hq]))]

theorem Row.get_append_of_right_null {r1 r2 : Row} {c : String}
    (h : r2.get c = Value.null) : (r1 ++ r2).get c = r1.get c := by
  rw [Row.get_append]
  cases hc : r1.hasCol c with
  | true => simp
  | false => simp [h, Row.get_eq_null_of_hasCol_eq_false hc]

theorem Row.get_fillRow_ne {c c' : String} (v : Value) (r : Row) (h : c' ≠ c) :
    (fillRow c v r).get c' = r.get c' := by
  induction r with
  | nil => rfl
  | cons p r ih =>
      obtain ⟨k, x⟩ := p
      simp only [fillRow, List.map_cons]
      by_cases hcond : k = c ∧ x = Value.null
      · rw [if_pos hcond]
        have hk : k ≠ c' := by
          rw [hcond.1]; exact fun hh => h hh.symm
        simp [Row.get, hk, fillRow] at ih ⊢
        exact ih
      · rw [if_neg hcond]
        by_cases h2 : k = c'
        · simp [Row.get, h2]
        · simp [Row.get, h2, fillRow] at ih ⊢
          exact ih

theorem Row.hasCol_fillRow (c c' : String) (v : Value) (r : Row) :
    (fillRow c v r).hasCol c' = r.hasCol c' := by
  induction r with
  | nil => rfl
  | cons p r ih =>
      obtain ⟨k, x⟩ := p
      simp only [fillRow, List.map_cons]
      by_cases hcond : k = c ∧ x = Value.null
      · rw [if_pos hcond]
        simp [Row.hasCol, fillRow] at ih ⊢
        rw [ih]
      · rw [if_neg hcond]
        simp [Row.hasCol, fillRow] at ih ⊢
        rw [ih]

theorem Row.get_fillRow_self (c : String) (v : Value) (r : Row) :
    (fillRow c v r).get c =
      if r.get c = Value.null ∧ r.hasCol c then v else r.get c := by
  induction r with
  | nil => simp [fillRow, Row.get, Row.hasCol]
  | cons p r ih =>
      obtain ⟨k, x⟩ := p
      simp only [fillRow, List.map_cons]
      by_cases hk : k = c
      · subst hk
        by_cases hx : x = Value.null
        · subst hx
          rw [if_pos ⟨rfl, rfl⟩]
          simp [Row.get, Row.hasCol]
        · rw [if_neg (fun hh => hx hh.2)]
          simp [Row.get, Row.hasCol, hx]
      · have hcond : ¬(k = c ∧ x = Value.null) := fun hh => hk hh.1
        rw [if_neg hcond]
        simp [Row.get, Row.hasCol, hk, fillRow] at ih ⊢
        exact ih

/-! ## Projection and enrichment-column lemmas -/

theorem selRow_get_agentId (ar : Row) : (selRow ar).get "agentId" = ar.get "id" := rfl

theorem enrich_map_get_agentId (g : String → Value) :
    Row.get (enrichCols.map (fun c => (c, g c))) "agentId" = Value.null := rfl

/-! ## Filter-engine lemmas -/

theorem applyColumnFilter_rows (df : DataFrame) (col : String) (sel : Value) :
    (applyColumnFilter df col sel).rows =
      df.rows.filter (fun r => isAll sel || pyEq (r.get col) sel) := by
  unfold applyColumnFilter
  cases h : isAll sel with
  | true => simp [h]
  | false => simp [h]

theorem applyColumnFilter_cols (df : DataFrame) (col : String) (sel : Value) :
    (applyColumnFilter df col sel).cols = df.cols := by
  unfold applyColumnFilter
  split <;> rfl

theorem filtered_df_rows (m : DataFrame) (s1 s2 s3 : Value) :
    (filtered_df m s1 s2 s3).rows = m.rows.filter (passesFilters s1 s2 s3) := by
  unfold filtered_df
  rw [applyColumnFilter_rows, applyColumnFilter_rows, applyColumnFilter_rows,
    List.filter_filter, List.filter_filter]
  apply List.filter_congr
  intro r _
  unfold passesFilters
  cases h1 : (isAll s1 || pyEq (r.get "propertyType") s1) <;>
    cases h2 : (isAll s2 || pyEq (r.get "city") s2) <;>
    cases h3 : (isAll s3 || pyEq (r.get "agent_companyName") s3) <;>
    simp [h1, h2, h3]

theorem filtered_df_cols (m : DataFrame) (s1 s2 s3 : Value) :
    (filtered_df m s1 s2 s3).cols = m.cols := by
  unfold filtered_df
  rw [applyColumnFilter_cols, applyColumnFilter_cols, applyColumnFilter_cols]

/-! ## Merge lemmas -/

theorem mergeRowOutputs_length_eq_one (sel_rows : List Row) (lr : Row)
    (h : (sel_rows.filter
        (fun rr => pyEq (lr.get "agentId") (rr.get "agentId"))).length ≤ 1) :
    (mergeRowOutputs sel_rows lr).length = 1 := by
  simp only [mergeRowOutputs]
  cases he : (sel_rows.filter
      (fun rr => pyEq (lr.get "agentId") (rr.get "agentId"))).isEmpty with
  | true => simp [he]
  | false =>
      have hne : sel_rows.filter
          (fun rr => pyEq (lr.get "agentId") (rr.get "agentId")) ≠ [] := by
        intro hnil
        rw [hnil] at he
        simp at he
      have h1 : 1 ≤ (sel_rows.filter
          (fun rr => pyEq (lr.get "agentId") (rr.get "agentId"))).length :=
        List.length_pos.mpr hne
      simp [he]
      omega

theorem length_flatMap_of_one {α β : Type} (l : List α) (g : α → List β)
    (h : ∀ a ∈ l, (g a).length = 1) : (l.flatMap g).length = l.length := by
  induction l with
  | nil => rfl
  | cons a l ih =>
      rw [List.flatMap_cons, List.length_append, h a (by simp),
        ih (fun b hb => h b (by simp [hb]))]
      simp [Nat.add_comm]

/-- The frame `merged_df` produces when no exception fires: the explicit
left-join rows followed by the three sentinel fills. -/
def mergedFrame (property_df agent_df : DataFrame) : DataFrame :=
  ((DataFrame.fillna
      (DataFrame.fillna
        (DataFrame.fillna
          { cols := property_df.cols ++ enrichCols,
            rows := property_df.rows.flatMap (mergeRowOutputs (agent_df.rows.map selRow)) }
          "agent_companyName" (Value.str "No Agent Assigned"))
        "agent_email" (Value.str "N/A"))
      "agent_phoneNumber" (Value.str "N/A")))

theorem merged_df_eq_ok (property_df agent_df : DataFrame)
    (hacols : agent_cols_to_merge.all (fun c => agent_df.cols.contains c) = true)
    (hkey : property_df.cols.contains "agentId" = true)
    (hnocol : enrichCols.any (fun c => property_df.cols.contains c) = false) :
    merged_df property_df agent_df = Except.ok (mergedFrame property_df agent_df) := by
  have hsel : agent_df_selected agent_df =
      Except.ok (DataFrame.mk ("agentId" :: enrichCols) (agent_df.rows.map selRow)) := by
    unfold agent_df_selected
    rw [if_pos hacols]
  unfold merged_df
  simp only [hsel]
  rw [if_pos hkey, if_neg (by simpa using hnocol)]
  rfl

theorem merged_df_ok_inversion (property_df agent_df m : DataFrame)
    (hok : merged_df property_df agent_df = Except.ok m) :
    agent_cols_to_merge.all (fun c => agent_df.cols.contains c) = true ∧
    property_df.cols.contains "agentId" = true ∧
    enrichCols.any (fun c => property_df.cols.contains c) = false ∧
    m = mergedFrame property_df agent_df := by
  unfold merged_df at hok
  split at hok
  · cases hok
  · rename_i sel hsel
    split at hok
    · rename_i hkey
      split at hok
      · cases hok
      · rename_i hnocol
        unfold agent_df_selected at hsel
        split at hsel
        · rename_i hall
          cases hsel
          cases hok
          exact ⟨hall, hkey, by simpa using hnocol, rfl⟩
        · cases hsel
    · rename_i hkey
      cases hok

theorem mergedFrame_rows (property_df agent_df : DataFrame) :
    (mergedFrame property_df agent_df).rows =
      (property_df.rows.flatMap (mergeRowOutputs (agent_df.rows.map selRow))).map
        (fun r => fillRow "agent_phoneNumber" (Value.str "N/A")
          (fillRow "agent_email" (Value.str "N/A")
            (fillRow "agent_companyName" (Value.str "No Agent Assigned") r))) := by
  unfold mergedFrame DataFrame.fillna
  simp [List.map_map, Function.comp]

/-- With no matching agent row, the merged row keeps the property cells and,
after the three fills, carries the three sentinel values. -/
theorem sentinel_fill_of_no_match (lr : Row)
    (hC : lr.hasCol "agent_companyName" = false)
    (hE : lr.hasCol "agent_email" = false)
    (hP : lr.hasCol "agent_phoneNumber" = false) :
    (fillRow "agent_phoneNumber" (Value.str "N/A")
      (fillRow "agent_email" (Value.str "N/A")
        (fillRow "agent_companyName" (Value.str "No Agent Assigned")
          (lr ++ enrichCols.map (fun c => (c, Value.null)))))).get "agent_companyName" =
      Value.str "No Agent Assigned" ∧
    (fillRow "agent_phoneNumber" (Value.str "N/A")
      (fillRow "agent_email" (Value.str "N/A")
        (fillRow "agent_companyName" (Value.str "No Agent Assigned")
          (lr ++ enrichCols.map (fun c => (c, Value.null)))))).get "agent_email" =
      Value.str "N/A" ∧
    (fillRow "agent_phoneNumber" (Value.str "N/A")
      (fillRow "agent_email" (Value.str "N/A")
        (fillRow "agent_companyName" (Value.str "No Agent Assigned")
          (lr ++ enrichCols.map (fun c => (c, Value.null)))))).get "agent_phoneNumber" =
      Value.str "N/A" := by
  have hbC : (lr ++ enrichCols.map (fun c => (c, Value.null))).get "agent_companyName" =
      Value.null := by
    rw [Row.get_append, hC]
    rfl
  have hbE : (lr ++ enrichCols.map (fun c => (c, Value.null))).get "agent_email" =
      Value.null := by
    rw [Row.get_append, hE]
    rfl
  have hbP : (lr ++ enrichCols.map (fun c => (c, Value.null))).get "agent_phoneNumber" =
      Value.null := by
    rw [Row.get_append, hP]
    rfl
  have hbhC : (lr ++ enrichCols.map (fun c => (c, Value.null))).hasCol "agent_companyName" =
      true := by
    rw [Row.hasCol_append, hC]
    rfl
  have hbhE : (lr ++ enrichCols.map (fun c => (c, Value.null))).hasCol "agent_email" =
      true := by
    rw [Row.hasCol_append, hE]
    rfl
  have hbhP : (lr ++ enrichCols.map (fun c => (c, Value.null))).hasCol "agent_phoneNumber" =
      true := by
    rw [Row.hasCol_append, hP]
    rfl
  refine ⟨?_, ?_, ?_⟩
  · rw [Row.get_fillRow_ne _ _ (by decide), Row.get_fillRow_ne _ _ (by decide),
      Row.get_fillRow_self, hbC, hbhC]
    simp
  · rw [Row.get_fillRow_ne _ _ (by decide), Row.get_fillRow_self,
      Row.get_fillRow_ne _ _ (by decide), hbE, Row.hasCol_fillRow, hbhE]
    simp
  · rw [Row.get_fillRow_self, Row.get_fillRow_ne _ _ (by decide),
      Row.get_fillRow_ne _ _ (by decide), hbP, Row.hasCol_fillRow, Row.hasCol_fillRow, hbhP]
    simp

/-! ## Claim theorems -/

/-- C3: for every enriched dataset and every filter selection, the filter
output is exactly the records whose value in each non-wildcard column equals
the selected literal, all active constraints combined with logical AND; the
output preserves the original row order of the input (it is a sublist of the
input rows, so no row is invented or deduplicated) and keeps the columns. -/
theorem filter_is_and_of_equalities (m : DataFrame) (s1 s2 s3 : Value) :
    (filtered_df m s1 s2 s3).rows = m.rows.filter (passesFilters s1 s2 s3) ∧
    (filtered_df m s1 s2 s3).rows.Sublist m.rows ∧
    (filtered_df m s1 s2 s3).cols = m.cols := by
  refine ⟨filtered_df_rows m s1 s2 s3, ?_, filtered_df_cols m s1 s2 s3⟩
  rw [filtered_df_rows]
  exact List.filter_sublist _

/-- C4: applying the filter with the wildcard `'All'` selected for all three
filterable columns returns the input dataset unchanged (identity law). -/
theorem filter_all_wildcard_identity (m : DataFrame) :
    filtered_df m (Value.str "All") (Value.str "All") (Value.str "All") = m := rfl

/-- C10: selecting the literal string `"All"` for any of the three filter
columns applies no constraint at all — the resulting rows are filtered only
by the remaining two selections, whatever the column's actual cell values
are (so rows whose cell really is `"All"` can never be isolated), and
selecting `"All"` everywhere returns the whole dataset. -/
theorem all_string_selection_is_wildcard (m : DataFrame) (s s' : Value) :
    ((filtered_df m (Value.str "All") s s').rows =
      m.rows.filter (fun r => (isAll s || pyEq (r.get "city") s) &&
        (isAll s' || pyEq (r.get "agent_companyName") s'))) ∧
    ((filtered_df m s (Value.str "All") s').rows =
      m.rows.filter (fun r => (isAll s || pyEq (r.get "propertyType") s) &&
        (isAll s' || pyEq (r.get "agent_companyName") s'))) ∧
    ((filtered_df m s s' (Value.str "All")).rows =
      m.rows.filter (fun r => (isAll s || pyEq (r.get "propertyType") s) &&
        (isAll s' || pyEq (r.get "city") s'))) ∧
    filtered_df m (Value.str "All") (Value.str "All") (Value.str "All") = m := by
  refine ⟨?_, ?_, ?_, rfl⟩ <;>
  · rw [filtered_df_rows]
    apply List.filter_congr
    intro r _
    simp [passesFilters, isAll]

/-- C5: for every table name and limit, a connection or query failure is
reported via `st.error` and an empty frame is returned instead of the
exception propagating; and the number of connections closed equals the
number opened on every path (the `finally` block closes the connection
exactly when one was opened). -/
theorem fetch_failure_reported_and_connection_closed (db : DbOutcome)
    (table_name : String) (limit : Nat) :
    (fetch_data db table_name limit).connectionsClosed =
      (fetch_data db table_name limit).connectionsOpened ∧
    (∀ msg, db = DbOutcome.connectFailure msg ∨ db = DbOutcome.queryFailure msg →
      (fetch_data db table_name limit).df = DataFrame.empty ∧
      (fetch_data db table_name limit).errorsShown =
        ["Error fetching " ++ table_name ++ ": " ++ msg]) := by
  cases db with
  | connectFailure m =>
      refine ⟨rfl, ?_⟩
      intro msg h
      rcases h with h | h
      · cases h
        exact ⟨rfl, rfl⟩
      · cases h
  | queryFailure m =>
      refine ⟨rfl, ?_⟩
      intro msg h
      rcases h with h | h
      · cases h
      · cases h
        exact ⟨rfl, rfl⟩
  | success df =>
      refine ⟨rfl, ?_⟩
      intro msg h
      rcases h with h | h
      · cases h
      · cases h

/-- C5 witness: a concrete connection failure is reported and yields the
empty frame. -/
theorem fetch_failure_reported_witness :
    (fetch_data (DbOutcome.connectFailure "connection refused") "Agent" 1000).df =
      DataFrame.empty ∧
    (fetch_data (DbOutcome.connectFailure "connection refused") "Agent" 1000).errorsShown =
      ["Error fetching " ++ "Agent" ++ ": " ++ "connection refused"] :=
  (fetch_failure_reported_and_connection_closed
    (DbOutcome.connectFailure "connection refused") "Agent" 1000).2
    "connection refused" (Or.inl rfl)

/-- C6 (spec-modelled cache): two `cached_fetch` calls with the same
`(tableName, limit)` key, the second within the 300-second TTL of the first
and the first finding no live cache entry, issue at most one underlying
query in total, and the second call returns the first call's result. -/
theorem cached_fetch_single_query (query : String → Nat → DataFrame)
    (t1 t2 : Nat) (tableName : String) (limit : Nat) (cache : List CacheEntry)
    (hfresh : cacheLookup cache (tableName, limit) t1 = none)
    (hwin : t2 < t1 + 300) :
    (cached_fetch query 300 t1 tableName limit cache).2.2 +
      (cached_fetch query 300 t2 tableName limit
        (cached_fetch query 300 t1 tableName limit cache).2.1).2.2 ≤ 1 ∧
    (cached_fetch query 300 t2 tableName limit
      (cached_fetch query 300 t1 tableName limit cache).2.1).1 =
    (cached_fetch query 300 t1 tableName limit cache).1 := by
  have h1 : cached_fetch query 300 t1 tableName limit cache =
      (query tableName limit,
        CacheEntry.mk (tableName, limit) (query tableName limit) (t1 + 300) :: cache, 1) := by
    unfold cached_fetch
    rw [hfresh]
  have h2 : cacheLookup
      (CacheEntry.mk (tableName, limit) (query tableName limit) (t1 + 300) :: cache)
      (tableName, limit) t2 = some (query tableName limit) := by
    unfold cacheLookup
    simp [List.find?_cons, hwin]
  simp only [h1]
  unfold cached_fetch
  simp only [h2]
  exact ⟨Nat.le_refl 1, trivial⟩

/-- C6 witness: a fresh cache, first fetch at time 0, second at time 299. -/
theorem cached_fetch_single_query_witness :
    (cached_fetch (fun _ _ => exampleAgent) 300 0 "Agent" 1000 []).2.2 +
      (cached_fetch (fun _ _ => exampleAgent) 300 299 "Agent" 1000
        (cached_fetch (fun _ _ => exampleAgent) 300 0 "Agent" 1000 []).2.1).2.2 ≤ 1 ∧
    (cached_fetch (fun _ _ => exampleAgent) 300 299 "Agent" 1000
      (cached_fetch (fun _ _ => exampleAgent) 300 0 "Agent" 1000 []).2.1).1 =
    (cached_fetch (fun _ _ => exampleAgent) 300 0 "Agent" 1000 []).1 :=
  cached_fetch_single_query (fun _ _ => exampleAgent) 0 299 "Agent" 1000 [] rfl
    (by decide)

/-- C7: if both fetched tables are empty the interaction halts with a
user-visible warning; if exactly one is empty, no merge is performed, the
non-empty frame is rendered unmodified, and an `st.info` notice tells the
user no enrichment occurred. -/
theorem empty_fetch_degrades (agent_df property_df : DataFrame) :
    (agent_df.rows.isEmpty = true → property_df.rows.isEmpty = true →
      (run_dashboard agent_df property_df).outcome = Rendered.stoppedBothEmpty ∧
      (run_dashboard agent_df property_df).warnings ≠ []) ∧
    (agent_df.rows.isEmpty = true → property_df.rows.isEmpty = false →
      (run_dashboard agent_df property_df).outcome = Rendered.propertyOnly property_df ∧
      (run_dashboard agent_df property_df).infos ≠ []) ∧
    (agent_df.rows.isEmpty = false → property_df.rows.isEmpty = true →
      (run_dashboard agent_df property_df).outcome = Rendered.agentOnly agent_df ∧
      (run_dashboard agent_df property_df).infos ≠ []) := by
  refine ⟨?_, ?_, ?_⟩ <;> intro h1 h2 <;> simp [run_dashboard, h1, h2]

/-- C7 witness: the three degradation outcomes at concrete frames. -/
theorem empty_fetch_degrades_witness :
    (run_dashboard DataFrame.empty exampleProperty).outcome =
      Rendered.propertyOnly exampleProperty ∧
    (run_dashboard exampleAgent DataFrame.empty).outcome =
      Rendered.agentOnly exampleAgent ∧
    (run_dashboard DataFrame.empty DataFrame.empty).outcome =
      Rendered.stoppedBothEmpty :=
  ⟨((empty_fetch_degrades DataFrame.empty exampleProperty).2.1 rfl rfl).1,
   ((empty_fetch_degrades exampleAgent DataFrame.empty).2.2 rfl rfl).1,
   ((empty_fetch_degrades DataFrame.empty DataFrame.empty).1 rfl rfl).1⟩

/-- C8: with both inputs non-empty, a missing `agentId` column on the
property side or a missing `id`/`companyName`/`email`/`phoneNumber` column
on the agent side makes the merge raise, and the exception is caught by the
script-level handler and reported as a user-visible `st.error` notice — the
interaction ends in `errorNotice`, never an unhandled fault. -/
theorem schema_mismatch_reported (agent_df property_df : DataFrame)
    (ha : agent_df.rows.isEmpty = false) (hp : property_df.rows.isEmpty = false)
    (hmiss : property_df.cols.contains "agentId" = false ∨
      agent_cols_to_merge.all (fun c => agent_df.cols.contains c) = false) :
    ∃ msg, (run_dashboard agent_df property_df).outcome = Rendered.errorNotice msg ∧
      (run_dashboard agent_df property_df).errors =
        ["❌ An unexpected error occurred: " ++ msg] := by
  have herr : ∃ e, merged_df property_df agent_df = Except.error e := by
    rcases hmiss with h | h
    · rcases hsel : agent_df_selected agent_df with e | sel
      · refine ⟨e, ?_⟩
        unfold merged_df
        rw [hsel]
      · refine ⟨"KeyError: agentId", ?_⟩
        unfold merged_df
        simp only [hsel]
        rw [if_neg (by simpa using h)]
    · refine ⟨"KeyError: agent columns ['id', 'companyName', 'email', 'phoneNumber']", ?_⟩
      have hsel : agent_df_selected agent_df =
          Except.error "KeyError: agent columns ['id', 'companyName', 'email', 'phoneNumber']" := by
        unfold agent_df_selected
        rw [if_neg (by simpa using h)]
      unfold merged_df
      rw [hsel]
  obtain ⟨e, he⟩ := herr
  refine ⟨e, ?_, ?_⟩
  · simp [run_dashboard, ha, hp, he]
  · simp [run_dashboard, ha, hp, he]

/-- C8 witness: a non-empty property frame without the `agentId` column ends
in a reported error notice. -/
theorem schema_mismatch_reported_witness :
    ∃ msg, (run_dashboard exampleAgent noKeyProperty).outcome =
      Rendered.errorNotice msg ∧
      (run_dashboard exampleAgent noKeyProperty).errors =
        ["❌ An unexpected error occurred: " ++ msg] :=
  schema_mismatch_reported exampleAgent noKeyProperty rfl rfl (Or.inl (by decide))

/-- C9 counterexample: with every variable unset, both a credential and a
table name are missing, but the messages shown name only the credential
variables — `DB_TABLE_AGENT` is missing yet never named, because
`st.stop()` after the credential check prevents the table-name check from
running. -/
theorem config_missing_naming_cex :
    ¬ (∀ v ∈ requiredCredVars ++ requiredTableVars,
        truthy (envEmpty v) = false →
        v ∈ (dashboard_startup envEmpty).namedVars) := by
  intro h
  exact absurd (h "DB_TABLE_AGENT" (by decide) rfl) (by decide)

/-- C9 (amended): any missing required value halts startup before any fetch
is attempted; the halting message names the missing variables of the first
failing validation stage — every missing credential variable is named, and
(only once all credentials are present) every missing table-name variable is
named; an unset port and TLS mode take the defaults `5432` and `require`. -/
theorem config_missing_halts (env : String → Option String)
    (hmiss : (∃ v ∈ requiredCredVars, truthy (env v) = false) ∨
      (∃ v ∈ requiredTableVars, truthy (env v) = false)) :
    ((dashboard_startup env).halted = true ∧ (dashboard_startup env).fetchCalls = 0) ∧
    (∀ v ∈ requiredCredVars, truthy (env v) = false →
      v ∈ (dashboard_startup env).namedVars) ∧
    ((∀ v ∈ requiredCredVars, truthy (env v) = true) →
      ∀ v ∈ requiredTableVars, truthy (env v) = false →
        v ∈ (dashboard_startup env).namedVars) ∧
    (env "DB_PORT" = none → db_port env = "5432") ∧
    (env "DB_SSL_MODE" = none → db_ssl_mode env = "require") := by
  cases hb1 : truthy (env "DB_HOST") && truthy (env "DB_NAME") &&
      truthy (env "DB_USER") && truthy (env "DB_PASSWORD") with
  | false =>
      refine ⟨?_, ?_, ?_, fun h => by simp [db_port, h], fun h => by simp [db_ssl_mode, h]⟩
      · constructor <;> simp [dashboard_startup, hb1]
      · intro v hv _
        have hnamed : (dashboard_startup env).namedVars = requiredCredVars := by
          simp [dashboard_startup, hb1]
        rw [hnamed]
        exact hv
      · intro hall v hv hvf
        exfalso
        have h1 := hall "DB_HOST" (by decide)
        have h2 := hall "DB_NAME" (by decide)
        have h3 := hall "DB_USER" (by decide)
        have h4 := hall "DB_PASSWORD" (by decide)
        rw [h1, h2, h3, h4] at hb1
        simp at hb1
  | true =>
      have hcred : ∀ v ∈ requiredCredVars, truthy (env v) = true := by
        simp only [Bool.and_eq_true] at hb1
        intro v hv
        simp only [requiredCredVars, List.mem_cons, List.not_mem_nil, or_false] at hv
        rcases hv with rfl | rfl | rfl | rfl
        · exact hb1.1.1.1
        · exact hb1.1.1.2
        · exact hb1.1.2
        · exact hb1.2
      cases hb2 : truthy (env "DB_TABLE_AGENT") && truthy (env "DB_TABLE_PROPERTY") with
      | false =>
          refine ⟨?_, ?_, ?_, fun h => by simp [db_port, h], fun h => by simp [db_ssl_mode, h]⟩
          · constructor <;> simp [dashboard_startup, hb1, hb2]
          · intro v hv hvf
            exact absurd (hcred v hv) (by simp [hvf])
          · intro _ v hv _
            have hnamed : (dashboard_startup env).namedVars = requiredTableVars := by
              simp [dashboard_startup, hb1, hb2]
            rw [hnamed]
            exact hv
      | true =>
          exfalso
          simp only [Bool.and_eq_true] at hb2
          rcases hmiss with ⟨v, hv, hvf⟩ | ⟨v, hv, hvf⟩
          · exact absurd (hcred v hv) (by simp [hvf])
          · simp only [requiredTableVars, List.mem_cons, List.not_mem_nil, or_false] at hv
            rcases hv with rfl | rfl
            · simp [hb2.1] at hvf
            · simp [hb2.2] at hvf

/-- C9 witness: with no variable set, startup halts, performs no fetch, and
names `DB_HOST` among the missing variables. -/
theorem config_missing_halts_witness :
    ((dashboard_startup envEmpty).halted = true ∧
      (dashboard_startup envEmpty).fetchCalls = 0) ∧
    "DB_HOST" ∈ (dashboard_startup envEmpty).namedVars :=
  ⟨(config_missing_halts envEmpty (Or.inl ⟨"DB_HOST", by decide, rfl⟩)).1,
   (config_missing_halts envEmpty (Or.inl ⟨"DB_HOST", by decide, rfl⟩)).2.1
     "DB_HOST" (by decide) rfl⟩

/-- C1 counterexample: with both inputs non-empty but the agent identifier
`10` occurring twice in the agent frame, the left merge emits one output row
per match — the one-row property frame produces two merged rows, so the
output row count exceeds the property input row count. -/
theorem merge_row_count_cex :
    exampleProperty.rows ≠ [] ∧ dupAgent.rows ≠ [] ∧
    exampleProperty.rows.length = 1 ∧
    (merged_df exampleProperty dupAgent).map (fun d => d.rows.length) =
      Except.ok 2 := by
  refine ⟨by decide, by decide, rfl, rfl⟩

/-- C1 (amended): for every pair of non-empty inputs on which the merge
succeeds (required columns present, no `agent_`-column collision) and in
which each property foreign key matches at most one agent row, the merged
output has exactly one row per property row — the left join preserves the
property row count. -/
theorem merge_preserves_row_count (property_df agent_df : DataFrame)
    (hp : property_df.rows ≠ []) (ha : agent_df.rows ≠ [])
    (hacols : agent_cols_to_merge.all (fun c => agent_df.cols.contains c) = true)
    (hkey : property_df.cols.contains "agentId" = true)
    (hnocol : enrichCols.any (fun c => property_df.cols.contains c) = false)
    (huniq : ∀ lr ∈ property_df.rows,
      (agent_df.rows.filter
        (fun ar => pyEq (lr.get "agentId") (ar.get "id"))).length ≤ 1) :
    ∃ m, merged_df property_df agent_df = Except.ok m ∧
      m.rows.length = property_df.rows.length := by
  refine ⟨mergedFrame property_df agent_df, merged_df_eq_ok _ _ hacols hkey hnocol, ?_⟩
  rw [mergedFrame_rows, List.length_map]
  apply length_flatMap_of_one
  intro lr hlr
  apply mergeRowOutputs_length_eq_one
  rw [List.filter_map, List.length_map]
  have hpred : (fun rr => pyEq (lr.get "agentId") (rr.get "agentId")) ∘ selRow =
      fun ar => pyEq (lr.get "agentId") (ar.get "id") := by
    funext ar
    simp [Function.comp, selRow_get_agentId]
  rw [hpred]
  exact huniq lr hlr

/-- C1 witness: the spec's matched one-property/one-agent scenario keeps the
single row. -/
theorem merge_preserves_row_count_witness :
    ∃ m, merged_df exampleProperty exampleAgent = Except.ok m ∧
      m.rows.length = exampleProperty.rows.length :=
  merge_preserves_row_count exampleProperty exampleAgent (by decide) (by decide)
    (by decide) (by decide) (by decide) (by decide)

/-- C2: in every successfully merged frame of a well-formed property input,
a record whose foreign key matches no agent identifier carries the sentinel
values: `agent_companyName = "No Agent Assigned"` and `agent_email =
agent_phoneNumber = "N/A"`. -/
theorem unmatched_rows_get_sentinels (property_df agent_df m : DataFrame)
    (hw : property_df.Wf) (hok : merged_df property_df agent_df = Except.ok m) :
    ∀ mr ∈ m.rows,
      (∀ ar ∈ agent_df.rows, pyEq (mr.get "agentId") (ar.get "id") = false) →
      mr.get "agent_companyName" = Value.str "No Agent Assigned" ∧
      mr.get "agent_email" = Value.str "N/A" ∧
      mr.get "agent_phoneNumber" = Value.str "N/A" := by
  obtain ⟨hall, hkey, hnocol, hm⟩ := merged_df_ok_inversion property_df agent_df m hok
  subst hm
  intro mr hmr hno
  rw [mergedFrame_rows] at hmr
  obtain ⟨r0, hr0, hF⟩ := List.mem_map.mp hmr
  obtain ⟨lr, hlr, hin⟩ := List.mem_flatMap.mp hr0
  simp only [enrichCols, List.any_cons, List.any_nil, Bool.or_eq_false_iff] at hnocol
  have hmemC : "agent_companyName" ∉ property_df.cols := by
    have := hnocol.1
    simpa using this
  have hmemE : "agent_email" ∉ property_df.cols := by
    have := hnocol.2.1
    simpa using this
  have hmemP : "agent_phoneNumber" ∉ property_df.cols := by
    have := hnocol.2.2.1
    simpa using this
  have hCf : lr.hasCol "agent_companyName" = false :=
    Row.hasCol_eq_false_of_keys_ne (fun p hp hc => hmemC (hc ▸ hw lr hlr p hp))
  have hEf : lr.hasCol "agent_email" = false :=
    Row.hasCol_eq_false_of_keys_ne (fun p hp hc => hmemE (hc ▸ hw lr hlr p hp))
  have hPf : lr.hasCol "agent_phoneNumber" = false :=
    Row.hasCol_eq_false_of_keys_ne (fun p hp hc => hmemP (hc ▸ hw lr hlr p hp))
  subst hF
  simp only [mergeRowOutputs] at hin
  by_cases hms : ((agent_df.rows.map selRow).filter
      (fun rr => pyEq (lr.get "agentId") (rr.get "agentId"))).isEmpty = true
  · rw [if_pos hms] at hin
    simp only [List.mem_singleton] at hin
    subst hin
    exact sentinel_fill_of_no_match lr hCf hEf hPf
  · rw [if_neg hms] at hin
    exfalso
    obtain ⟨rr, hrr, hr0eq⟩ := List.mem_map.mp hin
    have hrr2 := List.mem_filter.mp hrr
    obtain ⟨ar, har, hselr⟩ := List.mem_map.mp hrr2.1
    subst hr0eq
    have hget : (fillRow "agent_phoneNumber" (Value.str "N/A")
        (fillRow "agent_email" (Value.str "N/A")
          (fillRow "agent_companyName" (Value.str "No Agent Assigned")
            (lr ++ enrichCols.map (fun c => (c, rr.get c)))))).get "agentId" =
        lr.get "agentId" := by
      rw [Row.get_fillRow_ne _ _ (by decide), Row.get_fillRow_ne _ _ (by decide),
        Row.get_fillRow_ne _ _ (by decide),
        Row.get_append_of_right_null (enrich_map_get_agentId (fun c => rr.get c))]
    have hpy : pyEq (lr.get "agentId") (ar.get "id") = true := by
      have h := hrr2.2
      rw [← hselr, selRow_get_agentId] at h
      exact h
    have hfalse := hno ar har
    rw [hget] at hfalse
    rw [hpy] at hfalse
    cases hfalse

/-- C2 witness: the spec's unmatched scenario (`agentId = 99`, agents only
know id `10`) yields the three sentinel values. -/
theorem unmatched_rows_get_sentinels_witness :
    noMatchRow.get "agent_companyName" = Value.str "No Agent Assigned" ∧
    noMatchRow.get "agent_email" = Value.str "N/A" ∧
    noMatchRow.get "agent_phoneNumber" = Value.str "N/A" :=
  unmatched_rows_get_sentinels noMatchProperty exampleAgent noMatchMerged
    (by decide) rfl noMatchRow (by decide) (by decide)

end Dashboard
